import Mathlib

/-!
Verification of the dynamic REST mapper and client cache of
`pkg/client/apiutil/dynamicrestmapper.go` and `pkg/client/client_cache.go`,
as a shallow embedding in Lean 4.

Modelling conventions:
* Go errors become the inductive `MError`; a nil error is `Except.ok`.
* A Go run-time panic (method call on a nil interface) is the distinguished
  outcome `Res.panicked`.
* `time.Duration` and the token-bucket arithmetic of `golang.org/x/time/rate`
  (float64 tokens, int64 nanoseconds) are idealised over `ℚ`; a call is
  instantaneous (no wall-clock time passes between the steps of one call),
  and the current instant is passed explicitly as `now`.
* The mutable fields of `dynamicRESTMapper` (guarded by `drm.mu`) become a
  state record `Drm` threaded through each operation; the collaborator
  `newMapper func() (meta.RESTMapper, error)` becomes a script
  `fetches : Nat → Except MError M` consumed at index `fetchCount`
  (`fetchCount` is exactly the directory-source call counter of §8 of the
  design document).
-/

/-- Go errors relevant to this layer.  `noMatch` stands for both
`meta.NoKindMatchError` and `meta.NoResourceMatchError` ("not found");
`rateLimited` is `apiutil.ErrRateLimited` with its `Delay` field;
`other` is any other error (collaborator errors, ambiguity errors, ...),
carrying its message. -/
inductive MError where
  | noMatch
  | rateLimited (delay : ℚ)
  | other (msg : String)
deriving DecidableEq, Repr

/-- Is this one of the "not found" match errors? -/
def MError.isNoMatch : MError → Bool
  | .noMatch => true
  | _ => false

/-- Outcome of a Go call: a value, a non-nil error, or a run-time panic
(dereference of a nil interface). -/
inductive Res (α : Type) where
  | ok (a : α)
  | err (e : MError)
  | panicked
deriving DecidableEq, Repr

/-! ## RateGate: `dynamicLimiter` over `golang.org/x/time/rate` -/

/-- `rate.Limiter`: token bucket with refill rate `limit` tokens/second and
capacity `burst`, last updated at time `last` when it held `tokens` tokens
(tokens may be fractional and, after a reservation, negative). -/
structure Limiter where
  limit : ℚ
  burst : Nat
  tokens : ℚ
  last : ℚ
deriving DecidableEq, Repr

/-- `rate.InfDuration` (math.MaxInt64 nanoseconds), in seconds. -/
def infDuration : ℚ := (2 ^ 63 - 1) / 10 ^ 9

/-- `lim.advance(now)`: the token count updated for the time elapsed since
`last`, capped at `burst` (if `now` is before `last`, `last` is treated as
`now`). -/
def Limiter.advance (lim : Limiter) (now : ℚ) : ℚ :=
  let last := if now < lim.last then now else lim.last
  min (lim.burst : ℚ) (lim.tokens + (now - last) * lim.limit)

/-- A `rate.Reservation` as observed by `checkRate`: whether it is ok,
how many tokens it holds, and `Delay() = timeToAct − now`. -/
structure Reservation where
  ok : Bool
  tokens : ℚ
  delay : ℚ
deriving DecidableEq, Repr

/-- `lim.Reserve()` = `reserveN(now, 1, InfDuration)`: advance the bucket,
take one token, and record the wait until the bucket would be non-negative.
With an infinite reservation horizon the reservation is ok iff `1 ≤ burst`;
when not ok the limiter is left unchanged and `Delay()` is `InfDuration`. -/
def Limiter.reserve (lim : Limiter) (now : ℚ) : Reservation × Limiter :=
  let tokens := lim.advance now - 1
  let waitDur := if tokens < 0 then (-tokens) / lim.limit else 0
  if 1 ≤ lim.burst then
    ({ ok := true, tokens := 1, delay := waitDur },
     { lim with last := now, tokens := tokens })
  else
    ({ ok := false, tokens := 0, delay := infDuration }, lim)

/-- `res.Cancel()` at the same instant `now`: restore the reservation's
tokens to the bucket.  In the source, `restoreTokens` is
`r.tokens − limit·(lastEvent − timeToAct)`; with no later reservation,
`lastEvent = r.timeToAct`, so the full `r.tokens` is restored (capped at
`burst`).  A not-ok reservation, a zero-token reservation, or one whose
`timeToAct` has passed restores nothing. -/
def Reservation.cancel (res : Reservation) (lim : Limiter) (now : ℚ) : Limiter :=
  if !res.ok then lim
  else if res.tokens = 0 ∨ res.delay < 0 then lim
  else
    let restored := lim.advance now + res.tokens
    let tokens := min (lim.burst : ℚ) restored
    { lim with last := now, tokens := tokens }

/-- `dynamicLimiter.checkRate`: reserve with zero wait; if the reservation's
delay is zero the token is kept and admission succeeds, otherwise the
reservation is cancelled and `ErrRateLimited{res.Delay()}` is returned. -/
def checkRate (lim : Limiter) (now : ℚ) : Except MError Unit × Limiter :=
  let (res, lim1) := lim.reserve now
  if res.delay = 0 then (.ok (), lim1)
  else (.error (.rateLimited res.delay), res.cancel lim1 now)

/-! ## DynamicTypeMapper: `dynamicRESTMapper` -/

/-- The mutable state of a `dynamicRESTMapper`, generic over the snapshot
type `M` (the `meta.RESTMapper` built by one discovery round).
`staticMapper = none` is the nil interface before lazy initialization.
`fetches`/`fetchCount` script the `newMapper` collaborator: call number `i`
returns `fetches i`. -/
structure Drm (M : Type) where
  staticMapper : Option M
  lazy : Bool
  initDone : Bool
  limiter : Limiter
  fetches : Nat → Except MError M
  fetchCount : Nat

/-- `drm.setStaticMapper()`: one call to the `newMapper` collaborator; on
success the new snapshot replaces the old wholesale, on error the snapshot
field is left untouched and the error is returned verbatim. -/
def setStaticMapper {M : Type} (drm : Drm M) : Except MError Unit × Drm M :=
  match drm.fetches drm.fetchCount with
  | .error e => (.error e, { drm with fetchCount := drm.fetchCount + 1 })
  | .ok m =>
      (.ok (), { drm with fetchCount := drm.fetchCount + 1, staticMapper := some m })

/-- `drm.init()`: `initOnce.Do(func() { if drm.lazy { err = drm.setStaticMapper() } })`.
The named return `err` is assigned only when `Do` actually runs the closure,
i.e. on the first call; every later call returns the zero value nil even if
that first attempt failed. -/
def initStep {M : Type} (drm : Drm M) : Except MError Unit × Drm M :=
  if drm.initDone then (.ok (), drm)
  else
    let drm1 : Drm M := { drm with initDone := true }
    if drm1.lazy then setStaticMapper drm1
    else (.ok (), drm1)

/-- Evaluate a `checkNeedsReload` callback against the current
`staticMapper` field: on a nil interface (`none`) the method call panics. -/
def applyCheck {M α : Type} (check : M → Except MError α) : Option M → Res α
  | none => .panicked
  | some m =>
      match check m with
      | .ok a => .ok a
      | .error e => .err e

/-- `errors.As(err, &needsReloadErr)` as written in `checkAndReload`:
`needsReloadErr` is a parameter of static type `error`, so the target is a
pointer to the `error` interface itself.  `errors.As` reports a match when
the concrete type of some error in the chain is assignable to the target's
element type — and every concrete error type is assignable to the `error`
interface.  Hence this matches ANY non-nil error, regardless of the
`&meta.NoResourceMatchError{}` / `&meta.NoKindMatchError{}` value the call
sites pass for `needsReloadErr`. -/
def errorsAsAny {α : Type} (needsReloadErr : MError) (r : Res α) : Bool :=
  match r with
  | .err _ => true
  | _ => false

/-- `drm.checkAndReload(needsReloadErr, checkNeedsReload)`: evaluate under
the read lock; if the result "needs reload" (see `errorsAsAny`), re-check
under the write lock; if still so, consult the rate gate, rebuild the
snapshot, and return the callback's result against the new snapshot.
Sequential rendering: the lock acquisitions leave no trace of their own, so
the double-check re-evaluates against the same state. -/
def checkAndReload {M α : Type} (drm : Drm M) (needsReloadErr : MError)
    (check : M → Except MError α) (now : ℚ) : Res α × Drm M :=
  let r1 := applyCheck check drm.staticMapper
  if ¬ errorsAsAny needsReloadErr r1 then (r1, drm)
  else
    let r2 := applyCheck check drm.staticMapper
    if ¬ errorsAsAny needsReloadErr r2 then (r2, drm)
    else
      match checkRate drm.limiter now with
      | (.error e, lim1) => (.err e, { drm with limiter := lim1 })
      | (.ok _, lim1) =>
          let drm1 : Drm M := { drm with limiter := lim1 }
          match setStaticMapper drm1 with
          | (.error e, drm2) => (.err e, drm2)
          | (.ok _, drm2) => (applyCheck check drm2.staticMapper, drm2)

/-! ## Identifier spaces and the directory snapshot -/

/-- `schema.GroupVersionKind`: a type identifier. -/
structure GroupVersionKind where
  group : String
  version : String
  kind : String
deriving DecidableEq, Repr

/-- `schema.GroupVersionResource`: a resource identifier. -/
structure GroupVersionResource where
  group : String
  version : String
  resource : String
deriving DecidableEq, Repr

/-- `schema.GroupKind`. -/
structure GroupKind where
  group : String
  kind : String
deriving DecidableEq, Repr

/-- `meta.RESTMapping`: one entry of the directory, relating a resource
identifier, a type identifier and the scope (`Scope.Name() != "root"`
meaning namespaced). -/
structure RESTMapping where
  resource : GroupVersionResource
  gvk : GroupVersionKind
  scopeNamespaced : Bool
deriving DecidableEq, Repr

/-- Model of one immutable directory snapshot, i.e. of the external
`restmapper.NewDiscoveryRESTMapper(groupResources)` value the collaborator
returns (the spec's DirectorySnapshot: an immutable bidirectional table
with scope and naming metadata, built wholesale from one directory query).
Queries match by equality of the fully-specified identifiers; an empty
match is the "not found" error, an ambiguous single-result query a
different, non-match error. -/
structure Snapshot where
  mappings : List RESTMapping
  singulars : List (String × String)
deriving DecidableEq, Repr

/-- Snapshot query behind `staticMapper.KindsFor`. -/
def Snapshot.kindsFor (s : Snapshot) (res : GroupVersionResource) :
    Except MError (List GroupVersionKind) :=
  match (s.mappings.filter (fun m => m.resource == res)).map (fun m => m.gvk) with
  | [] => .error .noMatch
  | l => .ok l

/-- Snapshot query behind `staticMapper.KindFor`. -/
def Snapshot.kindFor (s : Snapshot) (res : GroupVersionResource) :
    Except MError GroupVersionKind :=
  match (s.mappings.filter (fun m => m.resource == res)).map (fun m => m.gvk) with
  | [] => .error .noMatch
  | [k] => .ok k
  | _ => .error (.other "multiple matches")

/-- Snapshot query behind `staticMapper.ResourcesFor`. -/
def Snapshot.resourcesFor (s : Snapshot) (input : GroupVersionResource) :
    Except MError (List GroupVersionResource) :=
  match (s.mappings.filter (fun m => m.resource == input)).map (fun m => m.resource) with
  | [] => .error .noMatch
  | l => .ok l

/-- Snapshot query behind `staticMapper.ResourceFor`. -/
def Snapshot.resourceFor (s : Snapshot) (input : GroupVersionResource) :
    Except MError GroupVersionResource :=
  match (s.mappings.filter (fun m => m.resource == input)).map (fun m => m.resource) with
  | [] => .error .noMatch
  | [r] => .ok r
  | _ => .error (.other "multiple matches")

/-- Snapshot query behind `staticMapper.RESTMappings`. -/
def Snapshot.restMappings (s : Snapshot) (gk : GroupKind) (versions : List String) :
    Except MError (List RESTMapping) :=
  match s.mappings.filter (fun m =>
      m.gvk.group == gk.group && m.gvk.kind == gk.kind
        && (versions.isEmpty || versions.contains m.gvk.version)) with
  | [] => .error .noMatch
  | l => .ok l

/-- Snapshot query behind `staticMapper.RESTMapping`. -/
def Snapshot.restMapping (s : Snapshot) (gk : GroupKind) (versions : List String) :
    Except MError RESTMapping :=
  match s.mappings.filter (fun m =>
      m.gvk.group == gk.group && m.gvk.kind == gk.kind
        && (versions.isEmpty || versions.contains m.gvk.version)) with
  | [] => .error .noMatch
  | m :: _ => .ok m

/-- Snapshot query behind `staticMapper.ResourceSingularizer`. -/
def Snapshot.resourceSingularizer (s : Snapshot) (res : String) :
    Except MError String :=
  match List.lookup res s.singulars with
  | some x => .ok x
  | none => .error .noMatch

/-! ## The public lookup operations

Each operation of `dynamicRESTMapper` runs `init` and then hands its query
closure to `checkAndReload`.  The `needsReloadErr` argument is
`&meta.NoResourceMatchError{}` for the resource-keyed operations and
`&meta.NoKindMatchError{}` for `RESTMapping(s)`; both are `MError.noMatch`
here (and, per `errorsAsAny`, the value is immaterial anyway). -/

/-- `dynamicRESTMapper.KindFor`. -/
def Drm.kindFor (drm : Drm Snapshot) (res : GroupVersionResource) (now : ℚ) :
    Res GroupVersionKind × Drm Snapshot :=
  match initStep drm with
  | (.error e, drm1) => (.err e, drm1)
  | (.ok _, drm1) => checkAndReload drm1 .noMatch (fun m => m.kindFor res) now

/-- `dynamicRESTMapper.KindsFor`. -/
def Drm.kindsFor (drm : Drm Snapshot) (res : GroupVersionResource) (now : ℚ) :
    Res (List GroupVersionKind) × Drm Snapshot :=
  match initStep drm with
  | (.error e, drm1) => (.err e, drm1)
  | (.ok _, drm1) => checkAndReload drm1 .noMatch (fun m => m.kindsFor res) now

/-- `dynamicRESTMapper.ResourceFor`. -/
def Drm.resourceFor (drm : Drm Snapshot) (input : GroupVersionResource) (now : ℚ) :
    Res GroupVersionResource × Drm Snapshot :=
  match initStep drm with
  | (.error e, drm1) => (.err e, drm1)
  | (.ok _, drm1) => checkAndReload drm1 .noMatch (fun m => m.resourceFor input) now

/-- `dynamicRESTMapper.ResourcesFor`. -/
def Drm.resourcesFor (drm : Drm Snapshot) (input : GroupVersionResource) (now : ℚ) :
    Res (List GroupVersionResource) × Drm Snapshot :=
  match initStep drm with
  | (.error e, drm1) => (.err e, drm1)
  | (.ok _, drm1) => checkAndReload drm1 .noMatch (fun m => m.resourcesFor input) now

/-- `dynamicRESTMapper.RESTMapping`. -/
def Drm.restMapping (drm : Drm Snapshot) (gk : GroupKind) (versions : List String)
    (now : ℚ) : Res RESTMapping × Drm Snapshot :=
  match initStep drm with
  | (.error e, drm1) => (.err e, drm1)
  | (.ok _, drm1) => checkAndReload drm1 .noMatch (fun m => m.restMapping gk versions) now

/-- `dynamicRESTMapper.RESTMappings`. -/
def Drm.restMappings (drm : Drm Snapshot) (gk : GroupKind) (versions : List String)
    (now : ℚ) : Res (List RESTMapping) × Drm Snapshot :=
  match initStep drm with
  | (.error e, drm1) => (.err e, drm1)
  | (.ok _, drm1) => checkAndReload drm1 .noMatch (fun m => m.restMappings gk versions) now

/-- `dynamicRESTMapper.ResourceSingularizer`. -/
def Drm.resourceSingularizer (drm : Drm Snapshot) (res : String) (now : ℚ) :
    Res String × Drm Snapshot :=
  match initStep drm with
  | (.error e, drm1) => (.err e, drm1)
  | (.ok _, drm1) => checkAndReload drm1 .noMatch (fun m => m.resourceSingularizer res) now

/-! ## TypeResourceCache: `clientCache` of `pkg/client/client_cache.go` -/

/-- `strings.HasSuffix(s, suffix)`, rendered over the strings' character
lists (the only suffix used here, "List", is ASCII, so byte and character
counts coincide). -/
def hasSuffix (s suffix : String) : Bool :=
  decide (s.data.length ≥ suffix.data.length)
    && (s.data.drop (s.data.length - suffix.data.length) == suffix.data)

/-- `gvk.Kind[:len(gvk.Kind)-4]` of the source: everything but the last four
characters. -/
def stripLast4 (s : String) : String :=
  String.mk (s.data.take (s.data.length - 4))

/-- The Kind adjustment at the top of `clientCache.newResource`:
`if strings.HasSuffix(gvk.Kind, "List") && isList { gvk.Kind = gvk.Kind[:len(gvk.Kind)-4] }`. -/
def itemGVK (gvk : GroupVersionKind) (isList : Bool) : GroupVersionKind :=
  if hasSuffix gvk.kind "List" && isList then { gvk with kind := stripLast4 gvk.kind }
  else gvk

/-- `resourceMeta`: the cached entry for one type — the constructed
transport handle (`rest.Interface`, of abstract type `H`), the (possibly
item-) `gvk`, and the REST mapping. -/
structure resourceMeta (H : Type) where
  client : H
  gvk : GroupVersionKind
  mapping : RESTMapping
deriving DecidableEq, Repr

/-- Modelled from the spec: `apiutil.GVKForObject` and the schema registry,
which are outside the analysed sources ("Derive the value's TypeIdentifier
from its runtime type").  A runtime value carries the type identifier its
scheme reports (or is unregistered, which is an error), and whether it is
list-shaped (`meta.IsListType`). -/
structure RuntimeObject where
  gvk : GroupVersionKind
  registered : Bool
  isList : Bool
deriving DecidableEq, Repr

/-- Modelled from the spec: the type-identifier derivation used by
`clientCache.getResource`. -/
def GVKForObject (obj : RuntimeObject) : Except MError GroupVersionKind :=
  if obj.registered then .ok obj.gvk
  else .error (.other "no kind is registered in scheme")

/-- `clientCache`: the `resourceByType` table (as an association list whose
head binding shadows older ones, like a Go map where the newest assignment
wins), together with its two collaborators bound to the cache's fixed
`config`/`codecs`/`mapper`: `apiutil.RESTClientForGVK` (the transport-handle
constructor) and `c.mapper.RESTMapping`. -/
structure ClientCache (H : Type) where
  resourceByType : List (GroupVersionKind × resourceMeta H)
  restClientForGVK : GroupVersionKind → Except MError H
  restMapping : GroupKind → String → Except MError RESTMapping

/-- Lookup `c.resourceByType[gvk]`. -/
def lookupType {H : Type} (t : List (GroupVersionKind × resourceMeta H))
    (gvk : GroupVersionKind) : Option (resourceMeta H) :=
  match t with
  | [] => none
  | (k, v) :: rest => if k = gvk then some v else lookupType rest gvk

/-- Map assignment `c.resourceByType[gvk] = r`: the new binding shadows any
earlier one. -/
def insertType {H : Type} (t : List (GroupVersionKind × resourceMeta H))
    (gvk : GroupVersionKind) (r : resourceMeta H) :
    List (GroupVersionKind × resourceMeta H) :=
  (gvk, r) :: t

/-- `clientCache.newResource`: strip the "List" suffix for list values,
construct the transport handle, resolve the REST mapping, and assemble the
`resourceMeta`; either collaborator failure aborts with that error. -/
def newResource {H : Type} (c : ClientCache H) (gvk0 : GroupVersionKind)
    (isList : Bool) : Except MError (resourceMeta H) :=
  let gvk := itemGVK gvk0 isList
  match c.restClientForGVK gvk with
  | .error e => .error e
  | .ok client =>
      match c.restMapping { group := gvk.group, kind := gvk.kind } gvk.version with
      | .error e => .error e
      | .ok mapping => .ok { client := client, gvk := gvk, mapping := mapping }

/-- `clientCache.getResource`: derive the type identifier; shared-lock
lookup; on a hit return the entry; on a miss take the exclusive lock, build
a new entry with `newResource` (returning its error and caching nothing on
failure), insert it and return it. -/
def getResource {H : Type} (c : ClientCache H) (obj : RuntimeObject) :
    Except MError (resourceMeta H) × ClientCache H :=
  match GVKForObject obj with
  | .error e => (.error e, c)
  | .ok gvk =>
      match lookupType c.resourceByType gvk with
      | some r => (.ok r, c)
      | none =>
          match newResource c gvk obj.isList with
          | .error e => (.error e, c)
          | .ok r => (.ok r, { c with resourceByType := insertType c.resourceByType gvk r })

/-! ## The lock structure of `getResource`, as a step trace

`getResource`'s miss path interleaves lock operations with work; to reason
about what runs under which lock, the path is also recorded as the sequence
of its steps, read off the source line by line. -/

/-- One step of `clientCache.getResource`. -/
inductive CacheStep where
  | rLock | tableRead | rUnlock | wLock | buildClient | mapperLookup | tableWrite | wUnlock
deriving DecidableEq, Repr

/-- The steps of `clientCache.getResource` on a cache miss:
`c.mu.RLock()`; read `c.resourceByType[gvk]`; `c.mu.RUnlock()`; not known,
so `c.mu.Lock()`; `newResource` = `apiutil.RESTClientForGVK` (transport-
handle construction) followed by `c.mapper.RESTMapping`; the insert
`c.resourceByType[gvk] = r`; the deferred `c.mu.Unlock()`. -/
def getResourceMissSteps : List CacheStep :=
  [.rLock, .tableRead, .rUnlock, .wLock, .buildClient, .mapperLookup, .tableWrite, .wUnlock]

/-- Whether the table's exclusive lock is held when the step at index `i`
runs (that is, after the first `i` steps have run). -/
def wLockHeldAt (steps : List CacheStep) (i : Nat) : Bool :=
  (steps.take i).count .wLock > (steps.take i).count .wUnlock

/-- Every occurrence of step `s` in `steps` runs while the table's
exclusive lock is held. -/
def runsUnderWLock (steps : List CacheStep) (s : CacheStep) : Bool :=
  (List.range steps.length).all fun i =>
    !(steps.getD i .rLock == s) || wLockHeldAt steps i

/-! ## Concrete states used by the claim witnesses -/

/-- Concrete state for exercising claim C1: the current snapshot misses the
queried identifier, the next directory fetch returns a snapshot that has
it, and the rate gate has tokens. -/
def c1Drm : Drm Nat :=
  { staticMapper := some 0, lazy := false, initDone := true,
    limiter := { limit := 5, burst := 5, tokens := 5, last := 0 },
    fetches := fun _ => .ok 1, fetchCount := 0 }

/-- The query closure used with `c1Drm`. -/
def c1Check : Nat → Except MError Nat :=
  fun n => if n = 0 then .error .noMatch else .ok n

/-- Concrete state for exercising claim C4: the snapshot answers `check2`,
the queried identifier is missing, and the directory source is down. -/
def c4Drm : Drm Nat :=
  { staticMapper := some 3, lazy := false, initDone := true,
    limiter := { limit := 5, burst := 5, tokens := 5, last := 0 },
    fetches := fun _ => .error (.other "discovery down"), fetchCount := 0 }

/-- The failing query closure used with `c4Drm`. -/
def c4Check : Nat → Except MError Nat := fun _ => .error .noMatch

/-- The previously-succeeding query closure used with `c4Drm`. -/
def c4Check2 : Nat → Except MError Nat := fun n => .ok n

/-- Concrete exhausted bucket for exercising claim C5. -/
def c5Lim : Limiter := { limit := 5, burst := 5, tokens := 0, last := 0 }

/-- Concrete state for exercising claim C5: an exhausted bucket and a query
that misses. -/
def c5Drm : Drm Nat :=
  { staticMapper := some 0, lazy := false, initDone := true,
    limiter := c5Lim, fetches := fun _ => .ok 1, fetchCount := 0 }

/-- The query closure used with `c5Drm`. -/
def c5Check : Nat → Except MError Nat := fun _ => .error .noMatch

/-- A lazy mapper whose initial directory fetch fails: the failing input of
claim C3. -/
def c3Drm : Drm Snapshot :=
  { staticMapper := none, lazy := true, initDone := false,
    limiter := { limit := 5, burst := 5, tokens := 5, last := 0 },
    fetches := fun _ => .error (.other "connection refused"), fetchCount := 0 }

/-- The query used against `c3Drm`. -/
def c3Query : GroupVersionResource :=
  { group := "apps", version := "v1", resource := "deployments" }

/-- State for exercising claim C6: a current snapshot on which the query
fails with an error that is NOT a "not found" error, tokens in the bucket,
and a directory source that would deliver a fresh snapshot. -/
def c6Drm : Drm Nat :=
  { staticMapper := some 0, lazy := false, initDone := true,
    limiter := { limit := 5, burst := 5, tokens := 5, last := 0 },
    fetches := fun _ => .ok 7, fetchCount := 0 }

/-- The query closure used with `c6Drm`: it fails on the current snapshot
with an unrelated error and succeeds on the fetched one. -/
def c6Check : Nat → Except MError Nat :=
  fun n => if n = 0 then .error (.other "boom") else .ok n

/-- Concrete cache for exercising claim C7: empty table, a transport-handle
constructor that fails. -/
def c7Cache : ClientCache Unit :=
  { resourceByType := [],
    restClientForGVK := fun _ => .error (.other "no client"),
    restMapping := fun _ _ => .error .noMatch }

/-- The value looked up in `c7Cache`. -/
def c7Obj : RuntimeObject :=
  { gvk := { group := "apps", version := "v1", kind := "Deployment" },
    registered := true, isList := false }

/-- Concrete cache for exercising claim C8: the transport-handle
constructor records the identifier it was asked to build for. -/
def c8Cache : ClientCache GroupVersionKind :=
  { resourceByType := [],
    restClientForGVK := fun g => .ok g,
    restMapping := fun gk v => .ok
      { resource := { group := gk.group, version := v, resource := "widgets" },
        gvk := { group := gk.group, version := v, kind := gk.kind },
        scopeNamespaced := true } }

/-- The cached entry of `c9Cache`. -/
def c9Meta : resourceMeta Unit :=
  { client := (),
    gvk := { group := "apps", version := "v1", kind := "Deployment" },
    mapping :=
      { resource := { group := "apps", version := "v1", resource := "deployments" },
        gvk := { group := "apps", version := "v1", kind := "Deployment" },
        scopeNamespaced := true } }

/-- Concrete cache for exercising claim C9: the entry is already cached and
both collaborators fail loudly if ever consulted. -/
def c9Cache : ClientCache Unit :=
  { resourceByType := [({ group := "apps", version := "v1", kind := "Deployment" }, c9Meta)],
    restClientForGVK := fun _ => .error (.other "constructor consulted"),
    restMapping := fun _ _ => .error (.other "mapper consulted") }

/-- The value looked up in `c9Cache`. -/
def c9Obj : RuntimeObject :=
  { gvk := { group := "apps", version := "v1", kind := "Deployment" },
    registered := true, isList := false }

/-- Concrete cache for exercising claim C10: both collaborators accept any
identifier and record what they were asked for. -/
def c10Cache : ClientCache GroupVersionKind :=
  { resourceByType := [],
    restClientForGVK := fun g => .ok g,
    restMapping := fun gk v => .ok
      { resource := { group := gk.group, version := v, resource := "" },
        gvk := { group := gk.group, version := v, kind := gk.kind },
        scopeNamespaced := true } }

/-! ## Supporting lemmas -/

/-- A failed directory fetch consumes the call but leaves the snapshot. -/
theorem setStaticMapper_fetch_error {M : Type} (drm : Drm M) (e : MError)
    (hfetch : drm.fetches drm.fetchCount = .error e) :
    setStaticMapper drm = (.error e, { drm with fetchCount := drm.fetchCount + 1 }) := by
  unfold setStaticMapper
  rw [hfetch]

/-- A successful directory fetch installs the new snapshot wholesale. -/
theorem setStaticMapper_fetch_ok {M : Type} (drm : Drm M) (m : M)
    (hfetch : drm.fetches drm.fetchCount = .ok m) :
    setStaticMapper drm
      = (.ok (), { drm with fetchCount := drm.fetchCount + 1, staticMapper := some m }) := by
  unfold setStaticMapper
  rw [hfetch]

/-- When the first evaluation is not a non-nil error, `checkAndReload`
returns it as is, touching nothing. -/
theorem checkAndReload_no_reload {M α : Type} (drm : Drm M) (target : MError)
    (check : M → Except MError α) (now : ℚ)
    (h1 : errorsAsAny target (applyCheck check drm.staticMapper) = false) :
    checkAndReload drm target check now = (applyCheck check drm.staticMapper, drm) := by
  simp [checkAndReload, h1]

/-- When the first evaluation yields an error, `checkAndReload` reduces to
the rate-gated rebuild protocol (the second, write-locked evaluation sees
the same state in this sequential rendering). -/
theorem checkAndReload_err {M α : Type} (drm : Drm M) (target : MError)
    (check : M → Except MError α) (now : ℚ) (e : MError)
    (h1 : applyCheck check drm.staticMapper = .err e) :
    checkAndReload drm target check now =
      (match checkRate drm.limiter now with
       | (.error e2, lim1) => (.err e2, { drm with limiter := lim1 })
       | (.ok _, lim1) =>
           match setStaticMapper { drm with limiter := lim1 } with
           | (.error e2, drm2) => (.err e2, drm2)
           | (.ok _, drm2) => (applyCheck check drm2.staticMapper, drm2)) := by
  simp [checkAndReload, h1, errorsAsAny]

/-! ## Claim theorems -/

/-- Claim C1: a lookup whose first evaluation fails with a "not found"
error performs at most one directory rebuild within that call (the
directory-source call counter `fetchCount` grows by at most one), and when
a rebuild is performed (the counter grew and the fetch succeeded) the
installed snapshot is the freshly fetched one and the returned value is the
result of re-evaluating the same query against it.  All seven lookup
operations delegate to `checkAndReload` with their query closure, so this
covers each of them. -/
theorem lookup_notFound_single_rebuild {M α : Type} (drm : Drm M)
    (target : MError) (check : M → Except MError α) (now : ℚ) (e : MError)
    (h1 : applyCheck check drm.staticMapper = .err e)
    (hnm : e.isNoMatch = true) :
    (checkAndReload drm target check now).2.fetchCount ≤ drm.fetchCount + 1 ∧
    ((drm.fetches drm.fetchCount).isOk = true →
      (checkAndReload drm target check now).2.fetchCount = drm.fetchCount + 1 →
      ((checkAndReload drm target check now).2.staticMapper
          = (drm.fetches drm.fetchCount).toOption ∧
        (checkAndReload drm target check now).1
          = applyCheck check (checkAndReload drm target check now).2.staticMapper)) := by
  rw [checkAndReload_err drm target check now e h1]
  rcases hcr : checkRate drm.limiter now with ⟨cr, lim1⟩
  cases cr with
  | error e2 =>
      simp only
      constructor
      · exact Nat.le_succ _
      · intro _ hInc
        exact absurd hInc (by omega)
  | ok u =>
      dsimp only
      cases hf : drm.fetches drm.fetchCount with
      | error e2 =>
          rw [setStaticMapper_fetch_error { drm with limiter := lim1 } e2 hf]
          refine ⟨Nat.le.refl, ?_⟩
          intro hOk _
          exact absurd hOk Bool.false_ne_true
      | ok m =>
          rw [setStaticMapper_fetch_ok { drm with limiter := lim1 } m hf]
          refine ⟨Nat.le.refl, ?_⟩
          intro _ _
          exact ⟨rfl, rfl⟩

/-- Witness for claim C1 at the concrete state `c1Drm`. -/
theorem lookup_notFound_single_rebuild_witness :
    (applyCheck c1Check c1Drm.staticMapper = .err .noMatch ∧
      MError.isNoMatch .noMatch = true) ∧
    ((checkAndReload c1Drm .noMatch c1Check 0).2.fetchCount ≤ c1Drm.fetchCount + 1 ∧
     ((c1Drm.fetches c1Drm.fetchCount).isOk = true →
       (checkAndReload c1Drm .noMatch c1Check 0).2.fetchCount = c1Drm.fetchCount + 1 →
       ((checkAndReload c1Drm .noMatch c1Check 0).2.staticMapper
           = (c1Drm.fetches c1Drm.fetchCount).toOption ∧
         (checkAndReload c1Drm .noMatch c1Check 0).1
           = applyCheck c1Check (checkAndReload c1Drm .noMatch c1Check 0).2.staticMapper))) :=
  ⟨⟨by decide, by decide⟩,
   lookup_notFound_single_rebuild c1Drm .noMatch c1Check 0 .noMatch (by decide) (by decide)⟩

/-- Claim C4: when the directory fetch a rebuild would perform fails, the
installed snapshot is left unchanged by the whole call, so any query that
succeeded against it beforehand still succeeds with the same answer
afterwards. -/
theorem failed_rebuild_keeps_snapshot {M α β : Type} (drm : Drm M)
    (target : MError) (check : M → Except MError α)
    (check2 : M → Except MError β) (v : β) (now : ℚ) (e : MError)
    (hfetch : drm.fetches drm.fetchCount = .error e)
    (hprev : applyCheck check2 drm.staticMapper = .ok v) :
    (checkAndReload drm target check now).2.staticMapper = drm.staticMapper ∧
    applyCheck check2 (checkAndReload drm target check now).2.staticMapper = .ok v := by
  have hpres : (checkAndReload drm target check now).2.staticMapper = drm.staticMapper := by
    cases h1 : applyCheck check drm.staticMapper with
    | ok a => rw [checkAndReload_no_reload drm target check now (by rw [h1]; rfl)]
    | panicked => rw [checkAndReload_no_reload drm target check now (by rw [h1]; rfl)]
    | err e1 =>
        rw [checkAndReload_err drm target check now e1 h1]
        rcases hcr : checkRate drm.limiter now with ⟨cr, lim1⟩
        cases cr with
        | error e2 => rfl
        | ok u =>
            dsimp only
            rw [setStaticMapper_fetch_error { drm with limiter := lim1 } e hfetch]
  exact ⟨hpres, by rw [hpres]; exact hprev⟩

/-- Witness for claim C4 at the concrete state `c4Drm`. -/
theorem failed_rebuild_keeps_snapshot_witness :
    (c4Drm.fetches c4Drm.fetchCount = .error (.other "discovery down") ∧
      applyCheck c4Check2 c4Drm.staticMapper = .ok 3) ∧
    ((checkAndReload c4Drm .noMatch c4Check 0).2.staticMapper = c4Drm.staticMapper ∧
     applyCheck c4Check2 (checkAndReload c4Drm .noMatch c4Check 0).2.staticMapper = .ok 3) :=
  ⟨⟨rfl, by decide⟩,
   failed_rebuild_keeps_snapshot c4Drm .noMatch c4Check c4Check2 3 0
     (.other "discovery down") rfl (by decide)⟩

/-- The advanced token count never exceeds the burst capacity. -/
theorem advance_le_burst (lim : Limiter) (now : ℚ) :
    lim.advance now ≤ (lim.burst : ℚ) := by
  unfold Limiter.advance
  exact min_le_left _ _

/-- Advancing a limiter whose `last` is already `now` re-caps its tokens. -/
theorem advance_at_now (lim : Limiter) (now t : ℚ) :
    ({ lim with last := now, tokens := t } : Limiter).advance now
      = min (lim.burst : ℚ) t := by
  unfold Limiter.advance
  rw [if_neg (lt_irrefl now)]
  dsimp only
  have h : t + (now - now) * lim.limit = t := by ring
  rw [h]

/-- When a token is available (advanced count at least one), `checkRate`
consumes it and admits. -/
theorem checkRate_granted (lim : Limiter) (now : ℚ)
    (hB : 1 ≤ lim.burst) (h1 : 1 ≤ lim.advance now) :
    checkRate lim now
      = (.ok (), { lim with last := now, tokens := lim.advance now - 1 }) := by
  simp only [checkRate, Limiter.reserve]
  rw [if_pos hB]
  dsimp only
  rw [if_neg (not_lt.mpr (by linarith : (0:ℚ) ≤ lim.advance now - 1))]
  rw [if_pos rfl]

/-- When no token is available (advanced count below one), `checkRate`
cancels the reservation — restoring the bucket to exactly its advanced
token count — and reports the delay `(1 − advanced)/limit`. -/
theorem checkRate_denied (lim : Limiter) (now : ℚ)
    (hR : 0 < lim.limit) (hB : 1 ≤ lim.burst) (h2 : lim.advance now < 1) :
    checkRate lim now
      = (.error (.rateLimited ((1 - lim.advance now) / lim.limit)),
         { lim with last := now, tokens := lim.advance now }) := by
  have hpos : 0 < (1 - lim.advance now) / lim.limit :=
    div_pos (by linarith) hR
  simp only [checkRate, Limiter.reserve]
  rw [if_pos hB]
  dsimp only
  rw [if_pos (by linarith : lim.advance now - 1 < (0:ℚ))]
  rw [neg_sub]
  rw [if_neg hpos.ne']
  unfold Reservation.cancel
  dsimp only
  rw [if_neg (by simp)]
  rw [if_neg (by push_neg; exact ⟨one_ne_zero, hpos.le⟩)]
  rw [advance_at_now]
  have hminsub : min (lim.burst : ℚ) (lim.advance now - 1) = lim.advance now - 1 :=
    min_eq_right (by linarith [advance_le_burst lim now])
  rw [hminsub]
  have hmin : min (lim.burst : ℚ) (lim.advance now - 1 + 1) = lim.advance now := by
    rw [(by ring : lim.advance now - 1 + 1 = lim.advance now)]
    exact min_eq_right (advance_le_burst lim now)
  rw [hmin]

/-- Claim C5: the admission check attempts a zero-wait reservation.  If the
advanced bucket holds at least one token the reservation's delay is zero,
the token is consumed (tokens drop by exactly one) and admission succeeds
with no error; otherwise the reservation is cancelled so that no token is
consumed (the bucket keeps its advanced count), and a RateLimited error is
returned whose delay is positive and is exactly the time after which the
bucket would hold one token again; and a call whose admission is denied
performs no rebuild (the directory-source call counter and the snapshot are
untouched). -/
theorem checkRate_zero_wait {M α : Type} (lim : Limiter) (now : ℚ)
    (drm : Drm M) (target : MError) (check : M → Except MError α)
    (hR : 0 < lim.limit) (hB : 1 ≤ lim.burst) :
    (1 ≤ lim.advance now →
      checkRate lim now
        = (.ok (), { lim with last := now, tokens := lim.advance now - 1 })) ∧
    (lim.advance now < 1 →
      checkRate lim now
        = (.error (.rateLimited ((1 - lim.advance now) / lim.limit)),
           { lim with last := now, tokens := lim.advance now }) ∧
      0 < (1 - lim.advance now) / lim.limit ∧
      lim.advance now + ((1 - lim.advance now) / lim.limit) * lim.limit = 1) ∧
    (drm.limiter = lim → lim.advance now < 1 →
      (checkAndReload drm target check now).2.fetchCount = drm.fetchCount ∧
      (checkAndReload drm target check now).2.staticMapper = drm.staticMapper) := by
  refine ⟨checkRate_granted lim now hB, ?_, ?_⟩
  · intro h2
    refine ⟨checkRate_denied lim now hR hB h2, div_pos (by linarith) hR, ?_⟩
    rw [div_mul_cancel₀ _ hR.ne']
    ring
  · intro hlim h2
    cases h1 : applyCheck check drm.staticMapper with
    | ok a => rw [checkAndReload_no_reload drm target check now (by rw [h1]; rfl)]
              exact ⟨rfl, rfl⟩
    | panicked => rw [checkAndReload_no_reload drm target check now (by rw [h1]; rfl)]
                  exact ⟨rfl, rfl⟩
    | err e1 =>
        rw [checkAndReload_err drm target check now e1 h1, hlim,
          checkRate_denied lim now hR hB h2]
        exact ⟨rfl, rfl⟩

/-- Witness for claim C5 at the concrete limiter of `c5Drm` (zero tokens,
so admission is denied with delay 1/5 s and no fetch happens). -/
theorem checkRate_zero_wait_witness :
    ((0:ℚ) < c5Lim.limit ∧ 1 ≤ c5Lim.burst) ∧
    ((1 ≤ c5Lim.advance 0 →
      checkRate c5Lim 0
        = (.ok (), { c5Lim with last := 0, tokens := c5Lim.advance 0 - 1 })) ∧
     (c5Lim.advance 0 < 1 →
      checkRate c5Lim 0
        = (.error (.rateLimited ((1 - c5Lim.advance 0) / c5Lim.limit)),
           { c5Lim with last := 0, tokens := c5Lim.advance 0 }) ∧
      0 < (1 - c5Lim.advance 0) / c5Lim.limit ∧
      c5Lim.advance 0 + ((1 - c5Lim.advance 0) / c5Lim.limit) * c5Lim.limit = 1) ∧
     (c5Drm.limiter = c5Lim → c5Lim.advance 0 < 1 →
      (checkAndReload c5Drm .noMatch c5Check 0).2.fetchCount = c5Drm.fetchCount ∧
      (checkAndReload c5Drm .noMatch c5Check 0).2.staticMapper = c5Drm.staticMapper)) :=
  ⟨⟨by norm_num [c5Lim], by norm_num [c5Lim]⟩,
   checkRate_zero_wait c5Lim 0 c5Drm .noMatch c5Check
     (by norm_num [c5Lim]) (by norm_num [c5Lim])⟩

/-- Claim C3 fails on the code (code bug): the single-use gate does run the
initial fetch only once, but its error is returned only by the call whose
invocation of `init` executed the gated closure — the named return `err` of
`init` keeps its zero value nil on every later call, because `initOnce.Do`
skips the closure that would assign it.  So after a failed first attempt, a
second query's `init` reports success (`.ok ()`), the mapper is still nil,
and the query dereferences the nil `staticMapper` (a run-time panic)
instead of receiving the shared error. -/
theorem lazy_init_error_not_shared :
    (c3Drm.kindFor c3Query 0).1 = .err (.other "connection refused") ∧
    (initStep (c3Drm.kindFor c3Query 0).2).1 = .ok () ∧
    ((c3Drm.kindFor c3Query 0).2).staticMapper = none ∧
    (((c3Drm.kindFor c3Query 0).2).kindFor c3Query 0).1 = .panicked := by
  refine ⟨rfl, rfl, rfl, rfl⟩

/-- Claim C6 fails on the code (code bug): because `errorsAsAny` matches
every non-nil error (the `errors.As` target is a pointer to the `error`
interface), a first evaluation failing with an unrelated error does NOT
return immediately: the call proceeds past both checks, consumes a rate
token (tokens drop from 5 to 4), performs a rebuild (the directory-source
call counter reaches 1, the snapshot is replaced) and returns the
re-evaluated result — here even converting the unrelated error into a
success.  This also contradicts the function's own comment, "If the
callback returns any other error, the function will return immediately
regardless." -/
theorem unrelated_error_still_reloads :
    MError.isNoMatch (.other "boom") = false ∧
    applyCheck c6Check c6Drm.staticMapper = .err (.other "boom") ∧
    checkAndReload c6Drm .noMatch c6Check 0
      = (.ok 7, { c6Drm with
          limiter := { limit := 5, burst := 5, tokens := 4, last := 0 },
          staticMapper := some 7, fetchCount := 1 }) := by
  refine ⟨by decide, by decide, ?_⟩
  norm_num [checkAndReload, checkRate, Limiter.reserve, Limiter.advance,
    Reservation.cancel, applyCheck, errorsAsAny, setStaticMapper, c6Drm, c6Check]

/-- Claim C2 counterexample: on the miss path of `clientCache.getResource`,
the transport-handle construction step runs while the table's exclusive
lock is held — `c.mu.Lock()` is taken before `newResource` (which performs
`apiutil.RESTClientForGVK`) is called — contradicting the claim that
construction happens without holding any lock of the
TypeIdentifier-to-handle table. -/
theorem construction_holds_table_lock :
    CacheStep.buildClient ∈ getResourceMissSteps ∧
    runsUnderWLock getResourceMissSteps .buildClient = true := by
  decide

/-- Claim C2 as amended: transport-handle construction (with the mapping
lookup and the table write) on a cache miss runs while holding the table's
exclusive lock, so concurrent misses serialize behind that lock; the
membership check is not repeated between acquiring the exclusive lock and
constructing (the step after `wLock` is already the construction), so a
later miss constructs again and its insert shadows the earlier entry —
the last write into the table wins. -/
theorem miss_construction_serialized {H : Type}
    (t : List (GroupVersionKind × resourceMeta H)) (gvk : GroupVersionKind)
    (r : resourceMeta H) :
    runsUnderWLock getResourceMissSteps .buildClient = true ∧
    runsUnderWLock getResourceMissSteps .mapperLookup = true ∧
    runsUnderWLock getResourceMissSteps .tableWrite = true ∧
    (getResourceMissSteps.drop 3).take 2 = [.wLock, .buildClient] ∧
    lookupType (insertType t gvk r) gvk = some r := by
  refine ⟨by decide, by decide, by decide, by decide, ?_⟩
  simp [insertType, lookupType]

/-- Claim C7: when resolving the mapping or constructing the transport
handle fails during a miss, `getResource` returns that error and the table
is unchanged, so an identical next call takes the miss path again and
retries resolution and construction. -/
theorem getResource_error_caches_nothing {H : Type} (c : ClientCache H)
    (obj : RuntimeObject) (gvk : GroupVersionKind) (e : MError)
    (hg : GVKForObject obj = .ok gvk)
    (hmiss : lookupType c.resourceByType gvk = none)
    (hfail : newResource c gvk obj.isList = .error e) :
    getResource c obj = (.error e, c) ∧
    getResource (getResource c obj).2 obj = (.error e, c) := by
  have h1 : getResource c obj = (.error e, c) := by
    unfold getResource
    rw [hg]
    dsimp only
    rw [hmiss]
    dsimp only
    rw [hfail]
  exact ⟨h1, by rw [h1]; exact h1⟩

/-- Witness for claim C7 at `c7Cache`/`c7Obj`. -/
theorem getResource_error_caches_nothing_witness :
    (GVKForObject c7Obj = .ok { group := "apps", version := "v1", kind := "Deployment" } ∧
     lookupType c7Cache.resourceByType
        { group := "apps", version := "v1", kind := "Deployment" } = none ∧
     newResource c7Cache { group := "apps", version := "v1", kind := "Deployment" }
        c7Obj.isList = .error (.other "no client")) ∧
    (getResource c7Cache c7Obj = (.error (.other "no client"), c7Cache) ∧
     getResource (getResource c7Cache c7Obj).2 c7Obj
        = (.error (.other "no client"), c7Cache)) :=
  ⟨⟨rfl, by decide, rfl⟩,
   getResource_error_caches_nothing c7Cache c7Obj
     { group := "apps", version := "v1", kind := "Deployment" }
     (.other "no client") rfl (by decide) rfl⟩

/-- Claim C8: for a list-shaped value whose Kind ends in "List", the cache
resolves the item type — `newResource` behaves exactly as it does for a
plain (non-list) value of the stripped Kind, so the produced entry
(transport handle, type identifier, mapping with resource identifier and
scope) is identical; and for a non-list value the Kind is never stripped,
even when it ends in "List". -/
theorem newResource_list_resolves_item_type {H : Type} (c : ClientCache H)
    (gvk gvkPlain : GroupVersionKind)
    (hsuf : hasSuffix gvk.kind "List" = true) :
    newResource c gvk true
      = newResource c { gvk with kind := stripLast4 gvk.kind } false ∧
    itemGVK gvk true = { gvk with kind := stripLast4 gvk.kind } ∧
    itemGVK gvkPlain false = gvkPlain := by
  have hfalse : ∀ g : GroupVersionKind, itemGVK g false = g := by
    intro g
    simp [itemGVK]
  have htrue : itemGVK gvk true = { gvk with kind := stripLast4 gvk.kind } := by
    simp [itemGVK, hsuf]
  refine ⟨?_, htrue, hfalse gvkPlain⟩
  unfold newResource
  rw [htrue, hfalse]

/-- Witness for claim C8: a list value of Kind "WidgetList" resolves to the
entry of a plain value of Kind "Widget"; a non-list value of Kind
"SpecialList" is untouched. -/
theorem newResource_list_resolves_item_type_witness :
    hasSuffix "WidgetList" "List" = true ∧
    (newResource c8Cache { group := "ex", version := "v1", kind := "WidgetList" } true
       = newResource c8Cache
           { group := "ex", version := "v1", kind := stripLast4 "WidgetList" } false ∧
     itemGVK { group := "ex", version := "v1", kind := "WidgetList" } true
       = { group := "ex", version := "v1", kind := stripLast4 "WidgetList" } ∧
     itemGVK { group := "ex", version := "v1", kind := "SpecialList" } false
       = { group := "ex", version := "v1", kind := "SpecialList" }) :=
  ⟨by decide,
   newResource_list_resolves_item_type c8Cache
     { group := "ex", version := "v1", kind := "WidgetList" }
     { group := "ex", version := "v1", kind := "SpecialList" } (by decide)⟩

/-- Claim C9: a lookup for an already-cached TypeIdentifier returns the
cached entry and changes nothing; and the hit path invokes neither the
transport-handle constructor nor the mapper — replacing both collaborators
with arbitrary other ones yields the same result. -/
theorem getResource_hit_read_only {H : Type} (c : ClientCache H)
    (obj : RuntimeObject) (gvk : GroupVersionKind) (r : resourceMeta H)
    (mk2 : GroupVersionKind → Except MError H)
    (mp2 : GroupKind → String → Except MError RESTMapping)
    (hg : GVKForObject obj = .ok gvk)
    (hhit : lookupType c.resourceByType gvk = some r) :
    getResource c obj = (.ok r, c) ∧
    getResource { c with restClientForGVK := mk2, restMapping := mp2 } obj
      = (.ok r, { c with restClientForGVK := mk2, restMapping := mp2 }) := by
  constructor
  · unfold getResource
    rw [hg]
    dsimp only
    rw [hhit]
  · unfold getResource
    rw [hg]
    dsimp only
    rw [hhit]

/-- Witness for claim C9 at `c9Cache`/`c9Obj`. -/
theorem getResource_hit_read_only_witness :
    (GVKForObject c9Obj = .ok { group := "apps", version := "v1", kind := "Deployment" } ∧
     lookupType c9Cache.resourceByType
        { group := "apps", version := "v1", kind := "Deployment" } = some c9Meta) ∧
    (getResource c9Cache c9Obj = (.ok c9Meta, c9Cache) ∧
     getResource
        { c9Cache with
          restClientForGVK := (fun _ => Except.ok ()),
          restMapping := (fun _ _ => Except.error MError.noMatch) } c9Obj
       = (.ok c9Meta,
          { c9Cache with
            restClientForGVK := (fun _ => Except.ok ()),
            restMapping := (fun _ _ => Except.error MError.noMatch) })) :=
  ⟨⟨rfl, by decide⟩,
   getResource_hit_read_only c9Cache c9Obj
     { group := "apps", version := "v1", kind := "Deployment" } c9Meta
     (fun _ => Except.ok ()) (fun _ _ => Except.error MError.noMatch) rfl (by decide)⟩

/-- Claim C10: a list value whose Kind is exactly "List" has the whole Kind
stripped away — the adjusted Kind is empty — and `newResource` then asks
the transport-handle constructor and the mapper for that empty Kind instead
of rejecting the call; and the strip removes exactly the last four
characters and nothing else ("ListList" becomes "List"). -/
theorem newResource_bare_list_kind_empty :
    itemGVK { group := "g", version := "v1", kind := "List" } true
      = { group := "g", version := "v1", kind := "" } ∧
    newResource c10Cache { group := "g", version := "v1", kind := "List" } true
      = .ok { client := { group := "g", version := "v1", kind := "" },
              gvk := { group := "g", version := "v1", kind := "" },
              mapping :=
                { resource := { group := "g", version := "v1", resource := "" },
                  gvk := { group := "g", version := "v1", kind := "" },
                  scopeNamespaced := true } } ∧
    itemGVK { group := "g", version := "v1", kind := "ListList" } true
      = { group := "g", version := "v1", kind := "List" } := by
  refine ⟨by decide, rfl, by decide⟩
